import Mathlib

/-!
Verification development for the wiki_project scraping scripts.

The repository consists of standalone Python scripts (`wiki_birth.py`,
`wiki_german_de.py`, `missing.py`, `birthlabel.py`, `wiki.py`) that all follow
the same checkpointed paginated fetch-and-persist pattern.  This file gives a
shallow embedding of the parts of those scripts that the specification talks
about: cell values and records (pandas DataFrames built with
`DataFrame.from_records`), the result normalizer `process_results`, the
retrying fetcher `query_wikidata` / `get_single_label`, the file-based
checkpoint store `save_pointer` / `load_pointer`, the per-scope batch loops of
`fetch_data` / `fetch_data_for_ids`, the batch label writer
`get_batch_labels`, and the row-enrichment loop `enrich_data`.

Network interaction is modelled by oracles: a function giving, for each
attempt (or each identifier, or each loop iteration), the outcome the remote
service would produce.  File contents are modelled explicitly as state.
-/

/-! ## Cell values and records

A SPARQL `results.bindings` entry is a JSON object mapping field names to
envelope objects.  `pd.DataFrame.from_records` turns a list of such records
into a DataFrame whose columns are the union of the keys; a record lacking a
key gets a missing value (NaN) in that cell.  `Val.null` models a missing
value (Python `None` or pandas `NaN`); `Val.obj` models a Python `dict`. -/

inductive Val where
  | null : Val
  | str : String → Val
  | obj : List (String × Val) → Val

/-- Python `dict.get k` on the field list of a `Val.obj`: first binding of the key,
if any (Python dict keys are unique, so first = only). -/
def dictGet (fs : List (String × Val)) (k : String) : Option Val :=
  (fs.find? (fun kv => kv.1 == k)).map (fun kv => kv.2)

/-- One raw or normalized record: an association list from field name to
cell value. -/
abbrev Rec := List (String × Val)

/-- Pandas `df[col].iloc[i]`-style cell access on one record: the value bound to
column `c`, or the missing marker when the record lacks the column (pandas
fills NaN for keys absent from a record in `from_records`). -/
def getCell (r : Rec) (c : String) : Val :=
  match r.find? (fun kv => kv.1 == c) with
  | some kv => kv.2
  | none => Val.null

/-- Whether a DataFrame built from `rows` has column `c`: `from_records`
makes the column set the union of the records' keys.  `df[c]` raises
`KeyError` exactly when this is false. -/
def hasCol (rows : List Rec) (c : String) : Bool :=
  rows.any (fun r => r.any (fun kv => kv.1 == c))

/-- Pandas `pd.notna`: false on the missing marker (None/NaN), true on anything
else (strings, dicts, ...). -/
def notna : Val → Bool
  | Val.null => false
  | _ => true

/-- Python `str()` rendering of a cell value as used inside the pointer
f-string `f"{last_birthdate}|{last_person}"`.  The missing marker renders as
pandas NaN does ("nan"); a dict's rendering is irrelevant to every property
below and is abbreviated. -/
def valStr : Val → String
  | Val.null => "nan"
  | Val.str s => s
  | Val.obj _ => "dict"

/-! ## ResultNormalizer: `process_results`

`wiki_birth.py` lines 71-77, `wiki_german_de.py` lines 71-77 and
`missing.py` lines 77-83 are textually identical:
for every column, `df[col].apply(lambda x: x.get("value", None)
if isinstance(x, dict) else x)`. -/

/-- The per-cell transform: unwrap a provider envelope (`dict`) to its
`value` sub-field, substituting the missing marker when the key is absent;
pass every non-dict cell through unchanged. -/
def normalizeCell : Val → Val
  | Val.obj fs => (dictGet fs "value").getD Val.null
  | v => v

/-- The function `process_results`: apply the per-cell transform to every cell of every
record (the Python code loops over columns; cell-wise the effect is the
same, and cells filled in for a missing key are NaN, which the transform
leaves unchanged). -/
def process_results (rows : List Rec) : List Rec :=
  rows.map (fun r => r.map (fun kv => (kv.1, normalizeCell kv.2)))

/-- A cell is flat when it is not a nested envelope: either a non-dict
scalar, or a dict whose `value` sub-field (if present) is itself a
non-dict.  This is the claim's domain "fields may be `\x7bvalue, ...\x7d`
envelopes or plain scalars". -/
def flatVal : Val → Bool
  | Val.obj fs =>
    match dictGet fs "value" with
    | some (Val.obj _) => false
    | _ => true
  | _ => true

/-- A raw batch all of whose cells are flat. -/
def flatBatch (rows : List Rec) : Bool :=
  rows.all (fun r => r.all (fun kv => flatVal kv.2))

/-! ## Fetcher: `query_wikidata`

`wiki_birth.py` / `wiki_german_de.py` / `missing.py` lines 26-46 (identical
control flow; only the backoff formula differs, which does not affect the
returned value).  The network is an oracle from attempt number to outcome. -/

/-- Outcome of one HTTP attempt: a transport-level failure
(`requests.exceptions.RequestException`, including non-2xx via
`raise_for_status`), or a parsed JSON body whose `results.bindings` list is
`bindings`. -/
inductive Attempt where
  | err : Attempt
  | ok : List Rec → Attempt

/-- Result of `query_wikidata`: `failed` models the `None` returned after
exhausting retries; `batch rows` models the returned DataFrame
(`DataFrame.from_records(results)` when nonempty, the empty `DataFrame()`
when the provider reports zero bindings). -/
inductive FetchResult where
  | failed : FetchResult
  | batch : List Rec → FetchResult

/-- The retry loop of `query_wikidata`, recursing on the remaining attempt
budget; `attempt` is the current attempt index. -/
def query_wikidataAux (oracle : Nat → Attempt) : Nat → Nat → FetchResult
  | _, 0 => FetchResult.failed
  | attempt, fuel + 1 =>
    match oracle attempt with
    | Attempt.ok bindings => FetchResult.batch bindings
    | Attempt.err => query_wikidataAux oracle (attempt + 1) fuel

/-- The function `query_wikidata(query, max_retries)`: try attempts `0, 1, ...` until one
succeeds or `max_retries` attempts have failed, in which case return the
distinguished failed result (`None`). -/
def query_wikidata (oracle : Nat → Attempt) (max_retries : Nat) : FetchResult :=
  query_wikidataAux oracle 0 max_retries

/-! ## Fetcher: `get_single_label` (`birthlabel.py` lines 34-67)

`MAX_RETRIES = 5` in `birthlabel.py`. -/

/-- Outcome of one `wbgetentities` attempt for a single entity: transport
failure, or a parsed body in which the entity either has an English label
(`some lab`) or does not (`none`). -/
inductive LabelAttempt where
  | err : LabelAttempt
  | ok : Option String → LabelAttempt

/-- The retry loop of `get_single_label`.  On a successful response it
returns the label if present and `None` otherwise (line 58); on a transport
error at the last attempt (`attempt == retries - 1`) it returns `None`
(line 64); otherwise it backs off and retries. -/
def get_single_labelAux (oracle : Nat → LabelAttempt) : Nat → Nat → Option String
  | _, 0 => none
  | attempt, fuel + 1 =>
    match oracle attempt with
    | LabelAttempt.ok lab => lab
    | LabelAttempt.err =>
      if fuel = 0 then none else get_single_labelAux oracle (attempt + 1) fuel

/-- The function `get_single_label(entity_id, retries)`. -/
def get_single_label (oracle : Nat → LabelAttempt) (retries : Nat) : Option String :=
  get_single_labelAux oracle 0 retries

/-! ## Checkpoint Store

`save_pointer` (`wiki_birth.py` 49-52, `wiki_german_de.py` 49-52,
`missing.py` 49-52, all identical): `open(filename, "w")` then write — a
full-file overwrite.  The backing file is modelled by `FileState`:
absent, or present and readably holding `content`, or present but raising
on read. -/

inductive FileState where
  | absent : FileState
  | readable : String → FileState
  | unreadable : FileState

/-- Python `str.strip()`: drop leading and trailing whitespace.  (Defined
over the character list so that it evaluates by kernel reduction.) -/
def stripStr (s : String) : String :=
  String.mk (((s.toList.dropWhile Char.isWhitespace).reverse.dropWhile
    Char.isWhitespace).reverse)

/-- The function `save_pointer(pointer, filename)`: overwrite the file with the pointer,
whatever state it was in. -/
def save_pointer (pointer : String) (_fs : FileState) : FileState :=
  FileState.readable pointer

namespace WikiBirth

/-- The `load_pointer` of `wiki_birth.py` lines 55-61 (identical in
`wiki_german_de.py`): if the file exists, read and `.strip()` it and return
the pointer, else return `None`.  There is no exception handler, so a read
error on an existing file propagates to the caller (`Except.error`). -/
def load_pointer : FileState → Except Unit (Option String)
  | FileState.absent => Except.ok none
  | FileState.readable content => Except.ok (some (stripStr content))
  | FileState.unreadable => Except.error ()

end WikiBirth

namespace Missing

/-- The `load_pointer` of `missing.py` lines 55-64: same read-and-strip, but the
whole body is wrapped in `try/except`, so any read error is logged and the
function falls through to `return None`. -/
def load_pointer : FileState → Option String
  | FileState.readable content => some (stripStr content)
  | _ => none

end Missing

/-! ## Resume lookup in an identifier list (`missing.py` lines 106-113)

`wikidata_ids.index(last_pointer)` finds the first occurrence; slicing
`[last_index + 1:]` resumes after it.  A `ValueError` (pointer not in the
list) is caught and the full list is kept. -/

/-- Python `list.index` as a total function: index of the first occurrence,
or `none` (standing for the raised `ValueError`). -/
def firstIdx : List String → String → Option Nat
  | [], _ => none
  | y :: ys, x => if y = x then some 0 else (firstIdx ys x).map (fun i => i + 1)

/-- The resume computation of `fetch_data_for_ids`: with no stored pointer
process the whole list; with a stored pointer resume after its first
occurrence, falling back to the whole list when it is not found. -/
def resume_ids (ids : List String) (ptr : Option String) : List String :=
  match ptr with
  | none => ids
  | some p =>
    match firstIdx ids p with
    | some i => ids.drop (i + 1)
    | none => ids

/-! ## Batch loop state

`fetch_data` (in `wiki_birth.py` and `wiki_german_de.py`) and
`fetch_data_for_ids` (in `missing.py`) share the same mutable state:
the pointer file on disk, the in-memory accumulator `all_results`, the
global `batch_count`, and the intermediate result files already written
(each one the concatenation of the buffered batches at flush time). -/

structure LoopSt where
  pointer : FileState
  buffer : List (List Rec)
  batchCount : Nat
  flushed : List (List Rec)

/-- What the body of the inner `while True` loop does with control:
return from `fetch_data` entirely (`abortRun`), `break` out to the next
scope (`scopeDone`), or loop again (`cont`). -/
inductive StepOut where
  | abortRun : StepOut
  | scopeDone : StepOut
  | cont : StepOut
deriving DecidableEq

namespace WikiBirth

/-- One iteration of the inner `while True` loop of `fetch_data`
(`wiki_birth.py` lines 129-169), given the fetch outcome `fr` for this
iteration (`BATCH_SIZE = 500`, `SAVE_EVERY_N_BATCHES = 20`):

* `None` from `query_wikidata` ⇒ log and `return` (lines 131-133);
* empty DataFrame ⇒ `break` to the next year range (lines 135-137);
* otherwise `process_results`, then inside `try`: read the last record's
  `birthdate` and `person` cells (`KeyError` when a column is absent ⇒
  `except` ⇒ `break`, lines 153-155); if both are non-NA overwrite the
  pointer file, else log and skip the pointer update (lines 148-152);
  append the batch, bump `batch_count`, flush every 20 batches, and
  `break` when the batch is shorter than `BATCH_SIZE` (lines 157-169). -/
def fetchStep (st : LoopSt) (fr : FetchResult) : StepOut × LoopSt :=
  match fr with
  | FetchResult.failed => (StepOut.abortRun, st)
  | FetchResult.batch rows =>
    if rows.isEmpty then (StepOut.scopeDone, st)
    else
      let processed := process_results rows
      if hasCol processed "birthdate" && hasCol processed "person" then
        let lb := getCell (processed.getLastD []) "birthdate"
        let lp := getCell (processed.getLastD []) "person"
        let st1 :=
          if notna lb && notna lp then
            { st with pointer := save_pointer (valStr lb ++ "|" ++ valStr lp) st.pointer }
          else st
        let st2 := { st1 with buffer := st1.buffer ++ [processed],
                              batchCount := st1.batchCount + 1 }
        let st3 :=
          if st2.batchCount % 20 == 0 then
            { st2 with flushed := st2.flushed ++ [st2.buffer.flatten], buffer := [] }
          else st2
        if processed.length < 500 then (StepOut.scopeDone, st3) else (StepOut.cont, st3)
      else (StepOut.scopeDone, st)

/-- How the inner loop of one scope ends: `break` (scope exhausted),
`return` (run aborted), or the modelling fuel ran out (the real loop would
still be iterating). -/
inductive LoopRes where
  | scopeDone : LoopRes
  | aborted : LoopRes
  | outOfFuel : LoopRes
deriving DecidableEq

/-- The inner `while True` loop of one scope, driven by an oracle giving
the fetch outcome of each iteration. -/
def fetchLoop (oracle : Nat → FetchResult) : Nat → Nat → LoopSt → LoopRes × LoopSt
  | 0, _, st => (LoopRes.outOfFuel, st)
  | fuel + 1, i, st =>
    let r := fetchStep st (oracle i)
    match r.1 with
    | StepOut.abortRun => (LoopRes.aborted, r.2)
    | StepOut.scopeDone => (LoopRes.scopeDone, r.2)
    | StepOut.cont => fetchLoop oracle fuel (i + 1) r.2

/-- How a whole `fetch_data` run ends. -/
inductive RunRes where
  | allDone : RunRes
  | aborted : RunRes
  | outOfFuel : RunRes
deriving DecidableEq

/-- The outer `for start_year in range(...)` loop of `fetch_data`
(lines 84-169): run the inner loop for each scope in order; a `return`
from the inner loop (fetch failure) ends the whole run at once, skipping
every remaining scope and the final save. -/
def fetchScopes (oracle : Nat → Nat → FetchResult) (fuel : Nat) :
    List Nat → LoopSt → RunRes × LoopSt
  | [], st => (RunRes.allDone, st)
  | s :: rest, st =>
    let r := fetchLoop (oracle s) fuel 0 st
    match r.1 with
    | LoopRes.aborted => (RunRes.aborted, r.2)
    | LoopRes.outOfFuel => (RunRes.outOfFuel, r.2)
    | LoopRes.scopeDone => fetchScopes oracle fuel rest r.2

end WikiBirth

namespace WikiGermanDe

/-- One iteration of the inner loop of `fetch_data` in `wiki_german_de.py`
(lines 140-175).  Identical to `WikiBirth.fetchStep` except lines 154-158:
there is no `pd.notna` guard, so the pointer file is overwritten with the
stringified last cells even when they are missing/NaN; only an exception
(absent column) skips the save and breaks. -/
def fetchStep (st : LoopSt) (fr : FetchResult) : StepOut × LoopSt :=
  match fr with
  | FetchResult.failed => (StepOut.abortRun, st)
  | FetchResult.batch rows =>
    if rows.isEmpty then (StepOut.scopeDone, st)
    else
      let processed := process_results rows
      if hasCol processed "birthdate" && hasCol processed "person" then
        let lb := getCell (processed.getLastD []) "birthdate"
        let lp := getCell (processed.getLastD []) "person"
        let st1 := { st with pointer := save_pointer (valStr lb ++ "|" ++ valStr lp) st.pointer }
        let st2 := { st1 with buffer := st1.buffer ++ [processed],
                              batchCount := st1.batchCount + 1 }
        let st3 :=
          if st2.batchCount % 20 == 0 then
            { st2 with flushed := st2.flushed ++ [st2.buffer.flatten], buffer := [] }
          else st2
        if processed.length < 500 then (StepOut.scopeDone, st3) else (StepOut.cont, st3)
      else (StepOut.scopeDone, st)

end WikiGermanDe

namespace Missing

/-- The `for wikidata_id in wikidata_ids` loop of `fetch_data_for_ids`
(`missing.py` lines 118-167), driven by an oracle giving each identifier's
fetch outcome (`SAVE_EVERY_N_BATCHES = 50`):

* `None` from `query_wikidata` ⇒ log "Skipping..." and `continue` to the
  next identifier (lines 147-149) — the run is not aborted and the pointer
  file is not touched;
* empty DataFrame ⇒ `continue` (lines 151-153);
* otherwise `process_results`, append, bump `batch_count`, overwrite the
  pointer file with this identifier, and flush every 50 batches
  (lines 156-167). -/
def fetchLoop (oracle : String → FetchResult) : List String → LoopSt → LoopSt
  | [], st => st
  | id :: rest, st =>
    match oracle id with
    | FetchResult.failed => fetchLoop oracle rest st
    | FetchResult.batch rows =>
      if rows.isEmpty then fetchLoop oracle rest st
      else
        let processed := process_results rows
        let st1 := { st with buffer := st.buffer ++ [processed],
                             batchCount := st.batchCount + 1,
                             pointer := save_pointer id st.pointer }
        let st2 :=
          if st1.batchCount % 50 == 0 then
            { st1 with flushed := st1.flushed ++ [st1.buffer.flatten], buffer := [] }
          else st1
        fetchLoop oracle rest st2

end Missing

namespace BirthLabel

/-! ## Batch label writer (`birthlabel.py` lines 69-115)

`get_batch_labels` first tries one `wbgetentities` request for the whole
batch; on any exception it marks every identifier missing and `None`, then
processes every missing identifier individually through
`get_single_label`.  `batch_result` is a Python dict keyed by entity id;
it is modelled as an association list with dict-style insert/lookup. -/

/-- Outcome of the single whole-batch request: an exception
(`missing_ids = entity_ids`), or a parsed body; `entities` maps an id to
`some label` exactly when `data['entities'][id]['labels']['en']` exists. -/
inductive BatchAttempt where
  | err : BatchAttempt
  | ok : List (String × String) → BatchAttempt

/-- Lookup of an entity's English label in the parsed batch response. -/
def lookupLabel (ents : List (String × String)) (id : String) : Option String :=
  (ents.find? (fun kv => kv.1 == id)).map (fun kv => kv.2)

/-- Python dict assignment `d[k] = v`: replace the binding of `k` if
present, else append a new one. -/
def dinsert : List (String × Option String) → String → Option String →
    List (String × Option String)
  | [], k, v => [(k, v)]
  | (k0, v0) :: rest, k, v =>
    if k0 = k then (k, v) :: rest else (k0, v0) :: dinsert rest k v

/-- Python dict lookup `d.get(k)` on the result dict. -/
def dlookup : List (String × Option String) → String → Option (Option String)
  | [], _ => none
  | (k0, v0) :: rest, k => if k0 = k then some v0 else dlookup rest k

/-- The function `get_batch_labels(entity_ids, retries)` with the whole-batch request's
outcome `resp` and a per-identifier attempt oracle `so` for the individual
fallback requests (`get_single_label` is called with the default
`retries = MAX_RETRIES = 5`):

* on a batch exception (lines 103-106), `batch_result = {id: None}` for
  every id and `missing_ids = entity_ids`;
* on a batch success (lines 93-99), each id found with a label gets it,
  each other id gets `None` and is appended to `missing_ids`;
* finally every missing id is fetched individually and its entry
  overwritten with the individual result (lines 109-113). -/
def get_batch_labels (resp : BatchAttempt) (so : String → Nat → LabelAttempt)
    (entity_ids : List String) : List (String × Option String) :=
  let first :
      List (String × Option String) × List String :=
    match resp with
    | BatchAttempt.err =>
      (entity_ids.foldl (fun m id => dinsert m id none) [], entity_ids)
    | BatchAttempt.ok ents =>
      entity_ids.foldl
        (fun acc id =>
          match lookupLabel ents id with
          | some lab => (dinsert acc.1 id (some lab), acc.2)
          | none => (dinsert acc.1 id none, acc.2 ++ [id]))
        ([], [])
  first.2.foldl (fun m id => dinsert m id (get_single_label (so id) 5)) first.1

end BirthLabel

namespace Wiki

/-! ## Enrichment loop (`wiki.py` lines 90-152)

`enrich_data` reads the input rows, resumes from `checkpoint.csv` when it
exists (taking `last_processed_index = len(checkpoint_df) - 1`, a pure row
count), and for every remaining row either appends an enriched output row
or — when the per-row fetches raise — logs and `continue`s, appending
nothing.  Every 100 accumulated rows the accumulator is written over the
checkpoint file.  An input row is modelled by its content (one string);
the enrichment result for a row is modelled by the attached info string. -/

/-- Outcome of the per-row fetches (lines 120-126): either the enrichment
payload, or an exception caught by the `except` that skips the row. -/
inductive RowOutcome where
  | ok : String → RowOutcome
  | err : RowOutcome

/-- State of `enrich_data`: the in-memory `enriched_data` list and the
contents of `checkpoint.csv` (`none` = file absent). -/
structure ESt where
  enriched : List (String × String)
  ckpt : Option (List (String × String))

/-- The body of the `for idx, row in df.iterrows()` loop for one indexed
row: skip it when `idx <= last_processed_index`; otherwise fetch (skip the
row on error), append the enriched row, and checkpoint when the
accumulator size is a multiple of 100. -/
def enrichStep (outcome : String → RowOutcome) (lastIdx : Int) (st : ESt)
    (ir : Nat × String) : ESt :=
  if (ir.1 : Int) ≤ lastIdx then st
  else
    match outcome ir.2 with
    | RowOutcome.err => st
    | RowOutcome.ok info =>
      let enriched2 := st.enriched ++ [(ir.2, info)]
      { enriched := enriched2,
        ckpt := if enriched2.length % 100 == 0 then some enriched2 else st.ckpt }

/-- Pandas `df.iterrows()` over rows read with `pd.read_csv`: the index is the
default RangeIndex, i.e. the position. -/
def enumFrom : Nat → List String → List (Nat × String)
  | _, [] => []
  | i, r :: rs => (i, r) :: enumFrom (i + 1) rs

/-- The function `enrich_data(input, output, checkpoint)`: returns the rows written to
the output CSV and the final contents of the checkpoint file.  With an
existing checkpoint of `k` rows, `enriched_data` starts as those rows and
`last_processed_index = k - 1`; with no checkpoint it starts empty with
`last_processed_index = -1`. -/
def enrich_data (rows : List String) (outcome : String → RowOutcome)
    (ckptFile : Option (List (String × String))) :
    List (String × String) × Option (List (String × String)) :=
  let start : ESt :=
    match ckptFile with
    | some c => { enriched := c, ckpt := some c }
    | none => { enriched := [], ckpt := none }
  let lastIdx : Int :=
    match ckptFile with
    | some c => (c.length : Int) - 1
    | none => -1
  let fin := (enumFrom 0 rows).foldl (enrichStep outcome lastIdx) start
  (fin.enriched, fin.ckpt)

/-- The enrichment of a row sequence with no skipping: one output row per
input row whose fetches succeed, in order; errored rows contribute
nothing. -/
def enrichList (outcome : String → RowOutcome) : List String → List (String × String)
  | [] => []
  | r :: rs =>
    match outcome r with
    | RowOutcome.ok info => (r, info) :: enrichList outcome rs
    | RowOutcome.err => enrichList outcome rs

end Wiki

/-! ## Helper lemmas -/

/-- Folding `save_pointer` over a nonempty list of pointers leaves the file
readable with exactly the last pointer written. -/
theorem foldl_save_pointer (ps : List String) :
    ∀ (p : String) (fs : FileState),
      (p :: ps).foldl (fun s q => save_pointer q s) fs
        = FileState.readable (ps.getLastD p) := by
  induction ps with
  | nil => intro p fs; rfl
  | cons q qs ih =>
    intro p fs
    rw [List.getLastD_cons]
    exact ih q (FileState.readable p)

/-- A pointer value absent from the identifier list is never found by
`list.index`. -/
theorem firstIdx_eq_none (ids : List String) (p : String) (h : p ∉ ids) :
    firstIdx ids p = none := by
  induction ids with
  | nil => rfl
  | cons y ys ih =>
    simp only [List.mem_cons, not_or] at h
    simp [firstIdx, Ne.symm h.1, ih h.2]

/-- Claim C4: every sequence of cursor saves is a full-file overwrite, so a
subsequent load (through either script's `load_pointer`) returns exactly the
last cursor saved, and a load from a fresh (absent) store returns absent.
The hypothesis states that the final cursor is its own strip, which
holds of every cursor the scripts serialize (single-line `date|id` or
`Q`-identifier text). -/
theorem checkpoint_last_write_wins (p : String) (ps : List String) (fs : FileState)
    (ht : stripStr (ps.getLastD p) = ps.getLastD p) :
    Missing.load_pointer ((p :: ps).foldl (fun s q => save_pointer q s) fs)
      = some (ps.getLastD p)
    ∧ WikiBirth.load_pointer ((p :: ps).foldl (fun s q => save_pointer q s) fs)
      = Except.ok (some (ps.getLastD p))
    ∧ (∀ (q : String) (s : FileState), save_pointer q s = FileState.readable q)
    ∧ Missing.load_pointer FileState.absent = none
    ∧ WikiBirth.load_pointer FileState.absent = Except.ok none := by
  refine ⟨?_, ?_, fun q s => rfl, rfl, rfl⟩
  · rw [foldl_save_pointer]
    simp only [Missing.load_pointer]
    rw [ht]
  · rw [foldl_save_pointer]
    simp only [WikiBirth.load_pointer]
    rw [ht]

/-- Witness for C4 at a concrete save sequence. -/
theorem checkpoint_last_write_wins_witness :
    (stripStr "2021-01-01|Q7" = "2021-01-01|Q7")
    ∧ Missing.load_pointer
        (["2020-05-05|Q5", "2021-01-01|Q7"].foldl (fun s q => save_pointer q s)
          FileState.absent)
        = some "2021-01-01|Q7" := by
  have h := checkpoint_last_write_wins "2020-05-05|Q5" ["2021-01-01|Q7"]
    FileState.absent (by decide)
  exact ⟨by decide, h.1⟩

/-- Claim C5, counterexample: `wiki_birth.py`'s `load_pointer` has no
exception handler, so on an existing-but-unreadable backing file the read
error propagates to the caller instead of an absent result. -/
theorem load_pointer_unreadable_raises :
    WikiBirth.load_pointer FileState.unreadable = Except.error () := rfl

/-- Claim C5, amended: `missing.py`'s `load_pointer` returns absent on a
missing or unreadable backing file and never raises; the `load_pointer` of
`wiki_birth.py` / `wiki_german_de.py` returns absent on a missing file but
propagates the exception when the existing file is unreadable. -/
theorem load_pointer_absent_or_unreadable :
    Missing.load_pointer FileState.absent = none
    ∧ Missing.load_pointer FileState.unreadable = none
    ∧ WikiBirth.load_pointer FileState.absent = Except.ok none
    ∧ WikiBirth.load_pointer FileState.unreadable = Except.error () :=
  ⟨rfl, rfl, rfl, rfl⟩

/-- Claim C7: a loaded cursor that is absent from the current identifier
list makes `fetch_data_for_ids` fall back to processing the full list from
the start (the `ValueError` from `list.index` is caught); with no stored
cursor the full list is processed as well.  `resume_ids` is a total
function, so the fallback neither crashes nor loops. -/
theorem resume_missing_cursor_full_domain (ids : List String) (p : String)
    (h : p ∉ ids) :
    resume_ids ids (some p) = ids ∧ resume_ids ids none = ids := by
  constructor
  · simp [resume_ids, firstIdx_eq_none ids p h]
  · rfl

/-- Witness for C7: a cursor identifier that disappeared from the list. -/
theorem resume_missing_cursor_full_domain_witness :
    ("Q9" ∉ ["Q1", "Q2"]) ∧ resume_ids ["Q1", "Q2"] (some "Q9") = ["Q1", "Q2"] :=
  ⟨by decide, (resume_missing_cursor_full_domain ["Q1", "Q2"] "Q9" (by decide)).1⟩

/-- The length of a normalized batch equals the length of the raw batch. -/
theorem process_results_length (rows : List Rec) :
    (process_results rows).length = rows.length :=
  List.length_map rows _

/-- If every attempt in the remaining budget fails, the retry loop of
`query_wikidata` falls through to the failed result. -/
theorem query_wikidataAux_all_err (oracle : Nat → Attempt) :
    ∀ (fuel attempt : Nat), (∀ i, i < fuel → oracle (attempt + i) = Attempt.err) →
      query_wikidataAux oracle attempt fuel = FetchResult.failed := by
  intro fuel
  induction fuel with
  | zero => intro attempt _; rfl
  | succ n ih =>
    intro attempt h
    have h0 : oracle attempt = Attempt.err := by
      have := h 0 (Nat.succ_pos n)
      simpa using this
    have hrest : ∀ i, i < n → oracle (attempt + 1 + i) = Attempt.err := by
      intro i hi
      have := h (i + 1) (by omega)
      have harith : attempt + (i + 1) = attempt + 1 + i := by omega
      rwa [harith] at this
    simp [query_wikidataAux, h0, ih (attempt + 1) hrest]

/-- If every attempt fails, the retry loop of `get_single_label` returns
`None`. -/
theorem get_single_labelAux_all_err (oracle : Nat → LabelAttempt)
    (hall : ∀ i, oracle i = LabelAttempt.err) :
    ∀ (fuel attempt : Nat), get_single_labelAux oracle attempt fuel = none := by
  intro fuel
  induction fuel with
  | zero => intro attempt; rfl
  | succ n ih =>
    intro attempt
    have hstep : get_single_labelAux oracle attempt (n + 1)
        = if n = 0 then none else get_single_labelAux oracle (attempt + 1) n := by
      show (match oracle attempt with
        | LabelAttempt.ok lab => lab
        | LabelAttempt.err =>
          if n = 0 then none else get_single_labelAux oracle (attempt + 1) n) = _
      rw [hall attempt]
    rw [hstep]
    cases n with
    | zero => rfl
    | succ m => exact ih (attempt + 1)

/-- Claim C1, counterexample: in `birthlabel.py`, `get_single_label` returns
`None` both after exhausting all 5 retry attempts and on a successful
response in which the entity simply has no English label, so at that call
site the terminal-failure result is NOT distinguished from the
zero-records success result. -/
theorem get_single_label_conflates_failure_and_empty :
    get_single_label (fun _ => LabelAttempt.err) 5 = none
    ∧ get_single_label (fun _ => LabelAttempt.ok none) 5 = none :=
  ⟨rfl, rfl⟩

/-- Claim C1, amended: `query_wikidata` (used by `missing.py`,
`wiki_birth.py`, `wiki_german_de.py`) returns the distinguished failed
result (`None`) after exhausting all retry attempts, which differs from
every successful batch including the empty one, so its callers can tell
"no more data" from "could not fetch data"; but `get_single_label` in
`birthlabel.py` returns `None` both after exhausting its retries and on a
successful response carrying no English label, conflating the two outcomes
for its callers. -/
theorem fetcher_failure_distinguished :
    (∀ (oracle : Nat → Attempt) (n : Nat),
      (∀ i, i < n → oracle i = Attempt.err) →
      query_wikidata oracle n = FetchResult.failed)
    ∧ (∀ rows : List Rec, FetchResult.failed ≠ FetchResult.batch rows)
    ∧ (∀ so : Nat → LabelAttempt, (∀ i, so i = LabelAttempt.err) →
        get_single_label so 5 = none)
    ∧ (∀ so : Nat → LabelAttempt, so 0 = LabelAttempt.ok none →
        get_single_label so 5 = none) := by
  refine ⟨?_, ?_, ?_, ?_⟩
  · intro oracle n h
    exact query_wikidataAux_all_err oracle n 0 (by simpa using h)
  · intro rows h
    cases h
  · intro so h
    exact get_single_labelAux_all_err so h 5 0
  · intro so h
    simp [get_single_label, get_single_labelAux, h]

/-- Witness for the amended C1 at concrete oracles. -/
theorem fetcher_failure_distinguished_witness :
    query_wikidata (fun _ => Attempt.err) 10 = FetchResult.failed
    ∧ get_single_label (fun _ => LabelAttempt.err) 5 = none :=
  ⟨fetcher_failure_distinguished.1 (fun _ => Attempt.err) 10 (fun _ _ => rfl),
   fetcher_failure_distinguished.2.2.1 (fun _ => LabelAttempt.err) (fun _ => rfl)⟩

/-- Claim C2, counterexample: in `missing.py`, a terminal fetch failure for
identifier `Q1` does not abort the run — the loop logs "Skipping..." and
`continue`s, so the following identifier `Q2` is still fetched, processed
(`batch_count` reaches 1) and even saved as the new checkpoint cursor. -/
theorem missing_continues_after_terminal_failure :
    (fun id => if id = "Q1" then FetchResult.failed
               else FetchResult.batch [[("person", Val.str "x")]]) "Q1"
      = FetchResult.failed
    ∧ (Missing.fetchLoop
        (fun id => if id = "Q1" then FetchResult.failed
                   else FetchResult.batch [[("person", Val.str "x")]])
        ["Q1", "Q2"] ⟨FileState.absent, [], 0, []⟩).batchCount = 1
    ∧ (Missing.fetchLoop
        (fun id => if id = "Q1" then FetchResult.failed
                   else FetchResult.batch [[("person", Val.str "x")]])
        ["Q1", "Q2"] ⟨FileState.absent, [], 0, []⟩).pointer
      = FileState.readable "Q2" :=
  ⟨rfl, rfl, rfl⟩

/-- Claim C2, amended: the two scripts disagree (as §9 of the spec notes).
In `wiki_birth.py` / `wiki_german_de.py`, a terminal fetch failure makes
the loop body return at once with the state — in particular the persisted
checkpoint cursor — unchanged, and the outer scope loop then ends the
entire run, touching none of the remaining scopes.  In `missing.py`, a
terminal fetch failure only skips the failed identifier: the loop
continues with the remaining identifiers and the checkpoint cursor is not
advanced for the failed one. -/
theorem terminal_failure_abort_policy :
    (∀ st : LoopSt, WikiBirth.fetchStep st FetchResult.failed = (StepOut.abortRun, st))
    ∧ (∀ (oracle : Nat → Nat → FetchResult) (fuel s : Nat) (rest : List Nat)
        (st : LoopSt), oracle s 0 = FetchResult.failed →
        WikiBirth.fetchScopes oracle (fuel + 1) (s :: rest) st
          = (WikiBirth.RunRes.aborted, st))
    ∧ (∀ (oracle : String → FetchResult) (id : String) (rest : List String)
        (st : LoopSt), oracle id = FetchResult.failed →
        Missing.fetchLoop oracle (id :: rest) st = Missing.fetchLoop oracle rest st) := by
  refine ⟨fun st => rfl, ?_, ?_⟩
  · intro oracle fuel s rest st h
    simp [WikiBirth.fetchScopes, WikiBirth.fetchLoop, WikiBirth.fetchStep, h]
  · intro oracle id rest st h
    simp [Missing.fetchLoop, h]

/-- Witness for the amended C2 at a concrete failing oracle. -/
theorem terminal_failure_abort_policy_witness :
    WikiBirth.fetchScopes (fun _ _ => FetchResult.failed) 3 [1525, 1545]
        ⟨FileState.readable "p", [], 0, []⟩
      = (WikiBirth.RunRes.aborted, ⟨FileState.readable "p", [], 0, []⟩)
    ∧ Missing.fetchLoop (fun _ => FetchResult.failed) ["Q1"]
        ⟨FileState.absent, [], 0, []⟩
      = Missing.fetchLoop (fun _ => FetchResult.failed) []
        ⟨FileState.absent, [], 0, []⟩ :=
  ⟨terminal_failure_abort_policy.2.1 (fun _ _ => FetchResult.failed) 2 1525 [1545]
      ⟨FileState.readable "p", [], 0, []⟩ rfl,
   terminal_failure_abort_policy.2.2 (fun _ => FetchResult.failed) "Q1" []
      ⟨FileState.absent, [], 0, []⟩ rfl⟩

/-- A nonempty batch whose normalized form lacks the `birthdate` or
`person` column makes `wiki_birth.py`'s loop body raise `KeyError` inside
the `try` and `break`, leaving the state untouched. -/
theorem wb_step_missing_cols (st : LoopSt) (rows : List Rec) (hne : rows ≠ [])
    (hcols : (hasCol (process_results rows) "birthdate"
      && hasCol (process_results rows) "person") = false) :
    WikiBirth.fetchStep st (FetchResult.batch rows) = (StepOut.scopeDone, st) := by
  cases rows with
  | nil => exact absurd rfl hne
  | cons a l =>
    simp only [WikiBirth.fetchStep, List.isEmpty_cons, Bool.false_eq_true, if_false]
    rw [if_neg (by simp [hcols])]

/-- Same as `wb_step_missing_cols` for `wiki_german_de.py`. -/
theorem wg_step_missing_cols (st : LoopSt) (rows : List Rec) (hne : rows ≠ [])
    (hcols : (hasCol (process_results rows) "birthdate"
      && hasCol (process_results rows) "person") = false) :
    WikiGermanDe.fetchStep st (FetchResult.batch rows) = (StepOut.scopeDone, st) := by
  cases rows with
  | nil => exact absurd rfl hne
  | cons a l =>
    simp only [WikiGermanDe.fetchStep, List.isEmpty_cons, Bool.false_eq_true, if_false]
    rw [if_neg (by simp [hcols])]

/-- A full (500-record) batch with cursor columns present but a missing/NaN
`birthdate` in the last record makes `wiki_birth.py`'s loop body skip the
pointer update and loop again: the scope is NOT terminated and the
persisted cursor is unchanged. -/
theorem wb_step_full_null_cont (st : LoopSt) (rows : List Rec)
    (hlen : rows.length = 500)
    (hb : hasCol (process_results rows) "birthdate" = true)
    (hp : hasCol (process_results rows) "person" = true)
    (hnull : notna (getCell ((process_results rows).getLastD []) "birthdate")
      = false) :
    (WikiBirth.fetchStep st (FetchResult.batch rows)).1 = StepOut.cont
    ∧ (WikiBirth.fetchStep st (FetchResult.batch rows)).2.pointer = st.pointer := by
  cases rows with
  | nil => simp at hlen
  | cons a l =>
    constructor
    · simp only [WikiBirth.fetchStep, List.isEmpty_cons, Bool.false_eq_true, if_false]
      rw [if_pos (by simp [hb, hp])]
      rw [if_neg (by rw [process_results_length, hlen]; omega)]
    · simp only [WikiBirth.fetchStep, List.isEmpty_cons, Bool.false_eq_true, if_false]
      rw [if_pos (by simp [hb, hp])]
      rw [if_neg (by rw [process_results_length, hlen]; omega)]
      simp only [hnull, Bool.false_and, Bool.false_eq_true, if_false]
      split <;> rfl

/-- A full (500-record) batch with cursor columns present makes
`wiki_german_de.py`'s loop body overwrite the pointer file with the
stringified last cells — whatever they are, including missing/NaN values —
and loop again. -/
theorem wg_step_full_cont (st : LoopSt) (rows : List Rec)
    (hlen : rows.length = 500)
    (hb : hasCol (process_results rows) "birthdate" = true)
    (hp : hasCol (process_results rows) "person" = true) :
    (WikiGermanDe.fetchStep st (FetchResult.batch rows)).1 = StepOut.cont
    ∧ (WikiGermanDe.fetchStep st (FetchResult.batch rows)).2.pointer
      = FileState.readable
          (valStr (getCell ((process_results rows).getLastD []) "birthdate")
            ++ "|" ++ valStr (getCell ((process_results rows).getLastD []) "person")) := by
  cases rows with
  | nil => simp at hlen
  | cons a l =>
    constructor
    · simp only [WikiGermanDe.fetchStep, List.isEmpty_cons, Bool.false_eq_true, if_false]
      rw [if_pos (by simp [hb, hp])]
      rw [if_neg (by rw [process_results_length, hlen]; omega)]
    · simp only [WikiGermanDe.fetchStep, List.isEmpty_cons, Bool.false_eq_true, if_false]
      rw [if_pos (by simp [hb, hp])]
      rw [if_neg (by rw [process_results_length, hlen]; omega)]
      split <;> rfl

/-- With a fetcher that keeps returning the same full batch whose last
record has a missing/NaN `birthdate`, `wiki_birth.py`'s inner loop never
leaves the scope: for every fuel bound it is still iterating. -/
theorem wb_loop_never_ends (rows : List Rec) (hlen : rows.length = 500)
    (hb : hasCol (process_results rows) "birthdate" = true)
    (hp : hasCol (process_results rows) "person" = true)
    (hnull : notna (getCell ((process_results rows).getLastD []) "birthdate")
      = false) :
    ∀ (fuel i : Nat) (st : LoopSt),
      (WikiBirth.fetchLoop (fun _ => FetchResult.batch rows) fuel i st).1
        = WikiBirth.LoopRes.outOfFuel := by
  intro fuel
  induction fuel with
  | zero => intro i st; rfl
  | succ n ih =>
    intro i st
    have hc := (wb_step_full_null_cont st rows hlen hb hp hnull).1
    simp only [WikiBirth.fetchLoop]
    rw [hc]
    exact ih (i + 1) _

set_option maxRecDepth 8000 in
/-- Claim C3, counterexample: a full batch of 500 records whose last record
has a present-but-valueless `birthdate` envelope (normalizing to a missing
value).  `wiki_birth.py`'s loop body logs "Missing or invalid
birthdate/person in the last record. Skipping pointer update.", keeps the
batch, and loops again — the scope is NOT terminated. -/
theorem malformed_cursor_does_not_end_scope :
    (WikiBirth.fetchStep ⟨FileState.readable "2020|Q1", [], 0, []⟩
      (FetchResult.batch (List.replicate 500
        [("birthdate", Val.obj []), ("person", Val.str "Q1")]))).1
      = StepOut.cont := by
  decide

/-- Claim C3, amended: only the exception path terminates the scope.  A
nonempty batch lacking the `birthdate`/`person` columns raises `KeyError`
and the loop logs and breaks out of the scope, leaving the state unchanged
(both scripts).  But a full batch whose cursor columns are present with a
missing/NaN value in the last record does not terminate the scope:
`wiki_birth.py` logs, skips the pointer update and keeps fetching — with a
fetcher that keeps answering that batch its inner loop never leaves the
scope — while `wiki_german_de.py` overwrites the pointer with the
stringified missing values and keeps fetching. -/
theorem malformed_cursor_policy :
    (∀ (st : LoopSt) (rows : List Rec), rows ≠ [] →
      (hasCol (process_results rows) "birthdate"
        && hasCol (process_results rows) "person") = false →
      WikiBirth.fetchStep st (FetchResult.batch rows) = (StepOut.scopeDone, st))
    ∧ (∀ (st : LoopSt) (rows : List Rec), rows ≠ [] →
      (hasCol (process_results rows) "birthdate"
        && hasCol (process_results rows) "person") = false →
      WikiGermanDe.fetchStep st (FetchResult.batch rows) = (StepOut.scopeDone, st))
    ∧ (∀ (st : LoopSt) (rows : List Rec), rows.length = 500 →
      hasCol (process_results rows) "birthdate" = true →
      hasCol (process_results rows) "person" = true →
      notna (getCell ((process_results rows).getLastD []) "birthdate") = false →
      (WikiBirth.fetchStep st (FetchResult.batch rows)).1 = StepOut.cont
      ∧ (WikiBirth.fetchStep st (FetchResult.batch rows)).2.pointer = st.pointer)
    ∧ (∀ (rows : List Rec), rows.length = 500 →
      hasCol (process_results rows) "birthdate" = true →
      hasCol (process_results rows) "person" = true →
      notna (getCell ((process_results rows).getLastD []) "birthdate") = false →
      ∀ (fuel i : Nat) (st : LoopSt),
        (WikiBirth.fetchLoop (fun _ => FetchResult.batch rows) fuel i st).1
          = WikiBirth.LoopRes.outOfFuel)
    ∧ (∀ (st : LoopSt) (rows : List Rec), rows.length = 500 →
      hasCol (process_results rows) "birthdate" = true →
      hasCol (process_results rows) "person" = true →
      (WikiGermanDe.fetchStep st (FetchResult.batch rows)).1 = StepOut.cont) :=
  ⟨wb_step_missing_cols, wg_step_missing_cols,
   fun st rows hlen hb hp hnull => wb_step_full_null_cont st rows hlen hb hp hnull,
   fun rows hlen hb hp hnull => wb_loop_never_ends rows hlen hb hp hnull,
   fun st rows hlen hb hp => (wg_step_full_cont st rows hlen hb hp).1⟩

set_option maxRecDepth 8000 in
/-- Witness for the amended C3: a batch without the cursor columns ends the
scope; the 500-record batch with a valueless last `birthdate` makes the
loop continue. -/
theorem malformed_cursor_policy_witness :
    WikiBirth.fetchStep ⟨FileState.absent, [], 0, []⟩
        (FetchResult.batch [[("personLabel", Val.str "x")]])
      = (StepOut.scopeDone, ⟨FileState.absent, [], 0, []⟩)
    ∧ (WikiBirth.fetchStep ⟨FileState.absent, [], 0, []⟩
        (FetchResult.batch (List.replicate 500
          [("birthdate", Val.obj []), ("person", Val.str "Q1")]))).1
      = StepOut.cont :=
  ⟨malformed_cursor_policy.1 ⟨FileState.absent, [], 0, []⟩
      [[("personLabel", Val.str "x")]] (List.cons_ne_nil _ _) (by decide),
   (malformed_cursor_policy.2.2.1 ⟨FileState.absent, [], 0, []⟩
      (List.replicate 500 [("birthdate", Val.obj []), ("person", Val.str "Q1")])
      (by decide) (by decide) (by decide) (by decide)).1⟩

/-- Claim C6: in `wiki_birth.py`'s scope loop, an empty batch breaks out of
the scope with the whole state — in particular the persisted cursor —
untouched; and any nonempty batch shorter than `BATCH_SIZE = 500` breaks
out of the scope after this iteration's processing, whatever its content
(via the length check when the cursor columns are present, via the
exception path otherwise).  When the cursor columns are present the
batch is indeed processed first: the batch counter advances. -/
theorem short_or_empty_batch_ends_scope :
    (∀ st : LoopSt, WikiBirth.fetchStep st (FetchResult.batch [])
      = (StepOut.scopeDone, st))
    ∧ (∀ (st : LoopSt) (rows : List Rec), rows ≠ [] → rows.length < 500 →
      (WikiBirth.fetchStep st (FetchResult.batch rows)).1 = StepOut.scopeDone)
    ∧ (∀ (st : LoopSt) (rows : List Rec), rows ≠ [] → rows.length < 500 →
      (hasCol (process_results rows) "birthdate"
        && hasCol (process_results rows) "person") = true →
      (WikiBirth.fetchStep st (FetchResult.batch rows)).2.batchCount
        = st.batchCount + 1) := by
  refine ⟨fun st => rfl, ?_, ?_⟩
  · intro st rows hne hlen
    cases rows with
    | nil => exact absurd rfl hne
    | cons a l =>
      simp only [WikiBirth.fetchStep, List.isEmpty_cons, Bool.false_eq_true, if_false]
      split
      · rw [if_pos (by rw [process_results_length]; exact hlen)]
      · rfl
  · intro st rows hne hlen hcols
    cases rows with
    | nil => exact absurd rfl hne
    | cons a l =>
      simp only [WikiBirth.fetchStep, List.isEmpty_cons, Bool.false_eq_true, if_false]
      rw [if_pos hcols, if_pos (by rw [process_results_length]; exact hlen)]
      split_ifs <;> rfl

/-- Witness for C6 at an empty batch and at a one-record batch. -/
theorem short_or_empty_batch_ends_scope_witness :
    WikiBirth.fetchStep ⟨FileState.readable "p", [], 3, []⟩ (FetchResult.batch [])
      = (StepOut.scopeDone, ⟨FileState.readable "p", [], 3, []⟩)
    ∧ (WikiBirth.fetchStep ⟨FileState.readable "p", [], 3, []⟩
        (FetchResult.batch [[("birthdate", Val.str "1990"), ("person", Val.str "Q1")]])).1
      = StepOut.scopeDone
    ∧ (WikiBirth.fetchStep ⟨FileState.readable "p", [], 3, []⟩
        (FetchResult.batch [[("birthdate", Val.str "1990"), ("person", Val.str "Q1")]])).2.batchCount
      = 4 :=
  ⟨short_or_empty_batch_ends_scope.1 ⟨FileState.readable "p", [], 3, []⟩,
   short_or_empty_batch_ends_scope.2.1 ⟨FileState.readable "p", [], 3, []⟩
      [[("birthdate", Val.str "1990"), ("person", Val.str "Q1")]]
      (List.cons_ne_nil _ _) (by decide),
   short_or_empty_batch_ends_scope.2.2 ⟨FileState.readable "p", [], 3, []⟩
      [[("birthdate", Val.str "1990"), ("person", Val.str "Q1")]]
      (List.cons_ne_nil _ _) (by decide) (by decide)⟩

/-- On a flat cell (an envelope of a non-dict, or a non-dict), the per-cell
normalization transform is idempotent. -/
theorem normalizeCell_flat (v : Val) (h : flatVal v = true) :
    normalizeCell (normalizeCell v) = normalizeCell v := by
  cases v with
  | null => rfl
  | str s => rfl
  | obj fs =>
    cases hv : dictGet fs "value" with
    | none => simp [normalizeCell, hv]
    | some w =>
      cases w with
      | null => simp [normalizeCell, hv]
      | str s => simp [normalizeCell, hv]
      | obj gs =>
        have h2 : flatVal (Val.obj fs) = false := by
          show (match dictGet fs "value" with
            | some (Val.obj _) => false
            | _ => true) = false
          rw [hv]
        rw [h] at h2
        exact Bool.noConfusion h2

/-- Claim C8: the normalizer is idempotent on every raw batch whose cells
are envelopes of scalars or plain scalars (the claim's domain): running
`process_results` twice yields exactly the same record sequence as running
it once. -/
theorem process_results_idempotent (rows : List Rec) (h : flatBatch rows = true) :
    process_results (process_results rows) = process_results rows := by
  unfold flatBatch at h
  rw [List.all_eq_true] at h
  unfold process_results
  rw [List.map_map]
  apply List.map_congr_left
  intro r hr
  have hr2 := h r hr
  rw [List.all_eq_true] at hr2
  show (r.map (fun kv => (kv.1, normalizeCell kv.2))).map
      (fun kv => (kv.1, normalizeCell kv.2))
    = r.map (fun kv => (kv.1, normalizeCell kv.2))
  rw [List.map_map]
  apply List.map_congr_left
  intro kv hkv
  have hflat := normalizeCell_flat kv.2 (by simpa using hr2 kv hkv)
  simp [Function.comp, hflat]

/-- Witness for C8 on a concrete raw batch mixing envelopes, envelopes
without a `value` sub-field, and plain scalars. -/
theorem process_results_idempotent_witness :
    flatBatch [[("person", Val.obj [("value", Val.str "Q1"), ("type", Val.str "uri")]),
                ("birthdate", Val.obj [("type", Val.str "literal")]),
                ("personLabel", Val.str "plain")]] = true
    ∧ process_results (process_results
        [[("person", Val.obj [("value", Val.str "Q1"), ("type", Val.str "uri")]),
          ("birthdate", Val.obj [("type", Val.str "literal")]),
          ("personLabel", Val.str "plain")]])
      = process_results
        [[("person", Val.obj [("value", Val.str "Q1"), ("type", Val.str "uri")]),
          ("birthdate", Val.obj [("type", Val.str "literal")]),
          ("personLabel", Val.str "plain")]] :=
  ⟨by decide,
   process_results_idempotent
     [[("person", Val.obj [("value", Val.str "Q1"), ("type", Val.str "uri")]),
       ("birthdate", Val.obj [("type", Val.str "literal")]),
       ("personLabel", Val.str "plain")]] (by decide)⟩

/-- Looking a key up after a dict assignment finds the assigned value on
that key and is unaffected on every other key. -/
theorem dlookup_dinsert (m : List (String × Option String)) (k k2 : String)
    (v : Option String) :
    BirthLabel.dlookup (BirthLabel.dinsert m k v) k2
      = if k = k2 then some v else BirthLabel.dlookup m k2 := by
  induction m with
  | nil => rfl
  | cons hd tl ih =>
    by_cases h0 : hd.1 = k
    · simp only [BirthLabel.dinsert, h0, if_pos rfl]
      by_cases h2 : k = k2
      · simp [BirthLabel.dlookup, h2]
      · simp [BirthLabel.dlookup, h2, h0]
    · simp only [BirthLabel.dinsert, if_neg h0]
      by_cases h1 : hd.1 = k2
      · have : ¬ k = k2 := fun hk => h0 (hk ▸ h1)
        simp [BirthLabel.dlookup, h1, this]
      · simp [BirthLabel.dlookup, h1, ih]

/-- Looking a key up after dict-assigning `f id` for every `id` of a list
returns `f k` when `k` is in the list, and is unaffected otherwise. -/
theorem dlookup_foldl_dinsert (f : String → Option String) (l : List String) :
    ∀ (m : List (String × Option String)) (k : String),
      BirthLabel.dlookup (l.foldl (fun m id => BirthLabel.dinsert m id (f id)) m) k
        = if k ∈ l then some (f k) else BirthLabel.dlookup m k := by
  induction l with
  | nil => intro m k; simp
  | cons a tl ih =>
    intro m k
    rw [List.foldl_cons, ih]
    by_cases h1 : k ∈ tl
    · simp [h1]
    · by_cases h2 : k = a
      · simp [h1, h2, dlookup_dinsert]
      · simp [h1, h2, dlookup_dinsert, Ne.symm h2]

/-- Claim C9: when the whole-batch `wbgetentities` request fails,
`get_batch_labels` retries every input identifier individually through
`get_single_label`, and the returned dict has an entry for every input
identifier — the individually fetched label (`some lab`) on success or the
explicit `None` marker otherwise — with no identifier dropped. -/
theorem batch_failure_no_id_dropped (so : String → Nat → LabelAttempt)
    (entity_ids : List String) (id : String) (h : id ∈ entity_ids) :
    BirthLabel.dlookup
        (BirthLabel.get_batch_labels BirthLabel.BatchAttempt.err so entity_ids) id
      = some (get_single_label (so id) 5) := by
  unfold BirthLabel.get_batch_labels
  rw [dlookup_foldl_dinsert]
  simp [h]

/-- Witness for C9: a two-identifier batch whose batch request failed; one
identifier's individual fetch succeeds, the other's exhausts its retries. -/
theorem batch_failure_no_id_dropped_witness :
    ("Q7" ∈ ["Q7", "Q9"])
    ∧ BirthLabel.dlookup
        (BirthLabel.get_batch_labels BirthLabel.BatchAttempt.err
          (fun id _ => if id = "Q7" then LabelAttempt.ok (some "Berlin")
                       else LabelAttempt.err)
          ["Q7", "Q9"]) "Q7"
      = some (get_single_label
          ((fun id _ => if id = "Q7" then LabelAttempt.ok (some "Berlin")
                        else LabelAttempt.err) "Q7") 5)
    ∧ BirthLabel.dlookup
        (BirthLabel.get_batch_labels BirthLabel.BatchAttempt.err
          (fun id _ => if id = "Q7" then LabelAttempt.ok (some "Berlin")
                       else LabelAttempt.err)
          ["Q7", "Q9"]) "Q9"
      = some none :=
  ⟨by decide,
   batch_failure_no_id_dropped
     (fun id _ => if id = "Q7" then LabelAttempt.ok (some "Berlin")
                  else LabelAttempt.err) ["Q7", "Q9"] "Q7" (by decide),
   by
    rw [batch_failure_no_id_dropped
      (fun id _ => if id = "Q7" then LabelAttempt.ok (some "Berlin")
                   else LabelAttempt.err) ["Q7", "Q9"] "Q9" (by decide)]
    rfl⟩

/-- The `df.iterrows` enumeration splits over list append. -/
theorem enumFrom_append (a b : List String) :
    ∀ i : Nat, Wiki.enumFrom i (a ++ b)
      = Wiki.enumFrom i a ++ Wiki.enumFrom (i + a.length) b := by
  induction a with
  | nil => intro i; simp [Wiki.enumFrom]
  | cons x xs ih =>
    intro i
    simp only [List.cons_append, Wiki.enumFrom, List.length_cons, List.append_eq]
    rw [ih (i + 1)]
    have harith : i + (xs.length + 1) = i + 1 + xs.length := by omega
    rw [harith]

/-- Rows whose positions are all `<= last_processed_index` are skipped by
the loop body: folding over them leaves the state unchanged. -/
theorem enrich_skip_done (o : String → Wiki.RowOutcome) (k : Nat) :
    ∀ (rs : List String) (i : Nat) (st : Wiki.ESt), i + rs.length ≤ k →
      (Wiki.enumFrom i rs).foldl (Wiki.enrichStep o ((k : Int) - 1)) st = st := by
  intro rs
  induction rs with
  | nil => intro i st _; rfl
  | cons r rs ih =>
    intro i st h
    have hik : i < k := by
      simp only [List.length_cons] at h; omega
    have htl : i + 1 + rs.length ≤ k := by
      simp only [List.length_cons] at h; omega
    simp only [Wiki.enumFrom, List.foldl_cons]
    have hstep : Wiki.enrichStep o ((k : Int) - 1) st (i, r) = st := by
      simp only [Wiki.enrichStep]
      split
      · rfl
      · case isFalse hcond =>
          exact absurd (show ((i : Int)) ≤ (k : Int) - 1 by omega) hcond
    rw [hstep]
    exact ih (i + 1) st htl

/-- Rows whose positions are all `> last_processed_index` are processed by
the loop body: the accumulator gains exactly their enrichment, in order. -/
theorem enrich_process_suffix (o : String → Wiki.RowOutcome) (k : Nat) :
    ∀ (rs : List String) (i : Nat) (st : Wiki.ESt), k ≤ i →
      ((Wiki.enumFrom i rs).foldl (Wiki.enrichStep o ((k : Int) - 1)) st).enriched
        = st.enriched ++ Wiki.enrichList o rs := by
  intro rs
  induction rs with
  | nil => intro i st _; simp [Wiki.enumFrom, Wiki.enrichList]
  | cons r rs ih =>
    intro i st h
    have hcond : ¬ ((i : Int) ≤ (k : Int) - 1) := by omega
    cases ho : o r with
    | err =>
      simp only [Wiki.enumFrom, List.foldl_cons, Wiki.enrichStep, Wiki.enrichList, ho]
      rw [if_neg hcond]
      exact ih (i + 1) st (by omega)
    | ok info =>
      simp only [Wiki.enumFrom, List.foldl_cons, Wiki.enrichStep, Wiki.enrichList, ho]
      rw [if_neg hcond]
      rw [ih (i + 1) _ (by omega)]
      simp

/-- Resuming `enrich_data` with a checkpoint of `k` rows skips exactly the
first `k` input rows by position: the output is the checkpoint contents
followed by the enrichment of the remaining rows. -/
theorem enrich_output_resume (rows : List String) (o : String → Wiki.RowOutcome)
    (c : List (String × String)) :
    (Wiki.enrich_data rows o (some c)).1
      = c ++ Wiki.enrichList o (rows.drop c.length) := by
  show ((Wiki.enumFrom 0 rows).foldl
      (Wiki.enrichStep o ((c.length : Int) - 1))
      { enriched := c, ckpt := some c }).enriched = _
  have hsplit : Wiki.enumFrom 0 rows
      = Wiki.enumFrom 0 (rows.take c.length)
        ++ Wiki.enumFrom (0 + (rows.take c.length).length) (rows.drop c.length) := by
    rw [← enumFrom_append, List.take_append_drop]
  rw [hsplit, List.foldl_append]
  rw [enrich_skip_done o c.length (rows.take c.length) 0 _
    (by simp [List.length_take])]
  by_cases hk : c.length ≤ rows.length
  · rw [enrich_process_suffix o c.length (rows.drop c.length)
      (0 + (rows.take c.length).length) _
      (by simp [List.length_take, Nat.min_eq_left hk])]
  · have hdrop : rows.drop c.length = [] :=
      List.drop_eq_nil_of_le (by omega)
    rw [hdrop]
    simp [Wiki.enumFrom, Wiki.enrichList]

/-- A fresh run of `enrich_data` (no checkpoint file) enriches every row,
skipping exactly the error rows. -/
theorem enrich_output_fresh (rows : List String) (o : String → Wiki.RowOutcome) :
    (Wiki.enrich_data rows o none).1 = Wiki.enrichList o rows := by
  show ((Wiki.enumFrom 0 rows).foldl (Wiki.enrichStep o (-1))
      { enriched := [], ckpt := none }).enriched = _
  rw [show (-1 : Int) = ((0 : Nat) : Int) - 1 by norm_num]
  rw [enrich_process_suffix o 0 rows 0 _ (le_refl 0)]
  rfl

/-- Every first component of an enriched output row is one of the input
rows. -/
theorem enrichList_fst_subset (o : String → Wiki.RowOutcome) :
    ∀ (l : List String) (r : String),
      r ∈ (Wiki.enrichList o l).map Prod.fst → r ∈ l := by
  intro l
  induction l with
  | nil => intro r h; simp [Wiki.enrichList] at h
  | cons x xs ih =>
    intro r h
    cases ho : o x with
    | ok info =>
      simp only [Wiki.enrichList, ho, List.map_cons, List.mem_cons] at h
      cases h with
      | inl h => exact h ▸ List.mem_cons_self x xs
      | inr h => exact List.mem_cons_of_mem x (ih r h)
    | err =>
      simp only [Wiki.enrichList, ho] at h
      exact List.mem_cons_of_mem x (ih r h)

/-- A row whose per-row fetch raises contributes no output row. -/
theorem enrichList_err_not_mem (o : String → Wiki.RowOutcome) (r : String)
    (herr : o r = Wiki.RowOutcome.err) :
    ∀ l : List String, r ∉ (Wiki.enrichList o l).map Prod.fst := by
  intro l
  induction l with
  | nil => simp [Wiki.enrichList]
  | cons x xs ih =>
    cases ho : o x with
    | ok info =>
      simp only [Wiki.enrichList, ho, List.map_cons, List.mem_cons]
      rintro (h | h)
      · rw [h] at herr
        rw [herr] at ho
        exact Wiki.RowOutcome.noConfusion ho
      · exact ih h
    | err =>
      simp only [Wiki.enrichList, ho]
      exact ih

/-- Claim C10: in `wiki.py`'s `enrich_data`, an input row whose per-row
fetch raises is skipped with no output row written; resuming with a
checkpoint of `k` rows skips exactly the first `k` input rows by position
(the checkpoint's row count, not row identity); consequently a row that was
skipped by error before a checkpointed crash — so it sits among the first
`k` input positions but not in the checkpoint contents — is never
reprocessed and is absent from the final output. -/
theorem enrich_error_rows_lost_on_resume :
    (∀ (rows : List String) (o : String → Wiki.RowOutcome)
      (c : List (String × String)),
      (Wiki.enrich_data rows o (some c)).1
        = c ++ Wiki.enrichList o (rows.drop c.length))
    ∧ (∀ (rows : List String) (o : String → Wiki.RowOutcome),
      (Wiki.enrich_data rows o none).1 = Wiki.enrichList o rows)
    ∧ (∀ (o : String → Wiki.RowOutcome) (rows : List String) (r : String),
      o r = Wiki.RowOutcome.err → r ∉ (Wiki.enrichList o rows).map Prod.fst)
    ∧ (∀ (rows : List String) (o : String → Wiki.RowOutcome)
      (c : List (String × String)) (r : String),
      rows.Nodup → r ∈ rows.take c.length → r ∉ c.map Prod.fst →
      o r = Wiki.RowOutcome.err →
      r ∉ ((Wiki.enrich_data rows o (some c)).1).map Prod.fst) := by
  refine ⟨enrich_output_resume, enrich_output_fresh,
    fun o rows r herr => enrichList_err_not_mem o r herr rows, ?_⟩
  intro rows o c r hnd htake hnc herr
  rw [enrich_output_resume rows o c]
  simp only [List.map_append, List.mem_append]
  rintro (h | h)
  · exact hnc h
  · have hr : r ∈ rows.drop c.length := enrichList_fst_subset o _ r h
    rw [← List.take_append_drop c.length rows, List.nodup_append] at hnd
    exact hnd.2.2 htake hr

/-- Witness for C10: two input rows, the first of which errored in an
earlier run that checkpointed only the second; on resume the errored first
row is position-skipped and absent from the final output. -/
theorem enrich_error_rows_lost_on_resume_witness :
    (Wiki.enrich_data ["e", "b"]
        (fun r => if r = "e" then Wiki.RowOutcome.err else Wiki.RowOutcome.ok "i")
        (some [("b", "lb")])).1
      = [("b", "lb")] ++ Wiki.enrichList
          (fun r => if r = "e" then Wiki.RowOutcome.err else Wiki.RowOutcome.ok "i")
          (["e", "b"].drop 1)
    ∧ "e" ∉ ((Wiki.enrich_data ["e", "b"]
        (fun r => if r = "e" then Wiki.RowOutcome.err else Wiki.RowOutcome.ok "i")
        (some [("b", "lb")])).1).map Prod.fst :=
  ⟨enrich_error_rows_lost_on_resume.1 ["e", "b"]
      (fun r => if r = "e" then Wiki.RowOutcome.err else Wiki.RowOutcome.ok "i")
      [("b", "lb")],
   enrich_error_rows_lost_on_resume.2.2.2 ["e", "b"]
      (fun r => if r = "e" then Wiki.RowOutcome.err else Wiki.RowOutcome.ok "i")
      [("b", "lb")] "e" (by decide) (by decide) (by decide) rfl⟩
